import Mathlib

/-!
Shallow embedding of the SprintSolve obstacle / collision subsystem
(`src/obstacles.ts`) and the character physics model (`src/character.ts`).

JavaScript numbers are modelled as exact rationals (`ℚ`); the layout and
collision claims are stated and checked in exact arithmetic.  The object
pool's recycling lists (`obstaclePool` / `tunnelPool` in the source) only
affect allocation reuse, never the field values of active objects
(`createObstacle` / `createTunnel` reset every field of a recycled object),
so the pool state is modelled by its two active lists.
-/

/-- Solid wall segment (`ObstacleImpl` in `src/obstacles.ts`): an
axis-aligned box `x, y, width, height`. -/
structure Obstacle where
  x : ℚ
  y : ℚ
  width : ℚ
  height : ℚ
deriving DecidableEq, Repr

/-- Tunnel (`TunnelImpl` in `src/obstacles.ts`): a gap annotated with one
candidate answer. -/
structure Tunnel where
  x : ℚ
  y : ℚ
  width : ℚ
  height : ℚ
  isCorrect : Bool
  answerText : String
deriving DecidableEq, Repr

/-- Trivia question (`Question` in `src/types/index.ts`): `correctAnswer`
is `number | null` in the source, modelled as `Option ℕ` (the provider only
ever stores a non-negative index or `null`).  The `display` flag plays no
role in generation or collision and is omitted. -/
structure Question where
  text : String
  correctAnswer : Option ℕ
  answers : List String
deriving DecidableEq, Repr

/-- The canvas dimensions consulted by the generator and the collision
detector (`canvas.width`, `canvas.height`). -/
structure Canvas where
  width : ℚ
  height : ℚ
deriving DecidableEq, Repr

/-- The character data consulted by `checkCollisions`: position `x, y` and
the side length `size` of its square collision box. -/
structure Character where
  x : ℚ
  y : ℚ
  size : ℚ
deriving DecidableEq, Repr

/-- `CollisionResult` (`src/types/index.ts:102`):
`'correct' | 'incorrect' | 'wall' | 'ceiling' | 'floor' | null`. -/
inductive CollisionResult where
  | correct
  | incorrect
  | wall
  | ceiling
  | floor
  | null
deriving DecidableEq, Repr

/-- State of the global `ObstaclePool` observable by generation and
collision detection: the `activeObstacles` and `activeTunnels` lists. -/
structure ObstaclePool where
  activeObstacles : List Obstacle
  activeTunnels : List Tunnel
deriving DecidableEq, Repr

/-- `ObstaclePool.createObstacle` (`src/obstacles.ts:141-158`): appends a
wall segment with the given fields to the active list (whether the object
is recycled or freshly allocated, its fields are exactly the arguments). -/
def ObstaclePool.createObstacle (pool : ObstaclePool) (x y width height : ℚ) :
    ObstaclePool :=
  { pool with activeObstacles := pool.activeObstacles ++ [⟨x, y, width, height⟩] }

/-- `ObstaclePool.createTunnel` (`src/obstacles.ts:160-179`). -/
def ObstaclePool.createTunnel (pool : ObstaclePool) (x y width height : ℚ)
    (isCorrect : Bool) (answerText : String) : ObstaclePool :=
  { pool with
    activeTunnels := pool.activeTunnels ++ [⟨x, y, width, height, isCorrect, answerText⟩] }

/-- `ObstaclePool.clear` (`src/obstacles.ts:223-239`): empties both active
lists (recycled objects go to the free pools, which are not observable). -/
def ObstaclePool.clear (_pool : ObstaclePool) : ObstaclePool :=
  ⟨[], []⟩

/-- `WallGenerator.defaultWallWidth` (`src/obstacles.ts:271`). -/
def defaultWallWidth : ℚ := 100

/-- `WallGenerator.defaultTunnelCount` (`src/obstacles.ts:272`). -/
def defaultTunnelCount : ℕ := 4

/-- `WallGenerator.minTunnelHeight` (`src/obstacles.ts:273`). -/
def minTunnelHeight : ℚ := 120

/-- JavaScript strict equality `i === question.correctAnswer`
(`src/obstacles.ts:310`) where `i` is the loop index and
`correctAnswer : number | null`: comparison with `null` is always false. -/
def indexEqCorrect (i : ℕ) (correctAnswer : Option ℕ) : Bool :=
  match correctAnswer with
  | none => false
  | some m => i == m

/-- `numberOfTunnels = Math.min(this.defaultTunnelCount, question.answers.length)`
(`src/obstacles.ts:281`). -/
def numberOfTunnelsOf (question : Question) : ℕ :=
  min defaultTunnelCount question.answers.length

/-- `tunnelHeight = Math.max(this.minTunnelHeight, characterSize * 2)`
(`src/obstacles.ts:282`). -/
def tunnelHeightOf (characterSize : ℚ) : ℚ :=
  max minTunnelHeight (characterSize * 2)

/-- `wallSegmentHeight = totalWallHeight / (numberOfTunnels + 1)`
(`src/obstacles.ts:294`). -/
def wallSegmentHeightOf (canvas : Canvas) (question : Question)
    (characterSize : ℚ) : ℚ :=
  (canvas.height - (numberOfTunnelsOf question : ℚ) * tunnelHeightOf characterSize) /
    ((numberOfTunnelsOf question : ℚ) + 1)

/-- The `for` loop of `WallGenerator.generateWallWithTunnels`
(`src/obstacles.ts:298-324`), iterating `steps` more times starting at loop
index `i` with the running vertical cursor `currentY`.  Each iteration adds
a wall segment at `currentY`; while `i < numberOfTunnels && i < answers.length`
it also adds the tunnel for answer `i` (`answers[i] || ''` is the answer
string, defaulting to the empty string) and advances `currentY`. -/
def genIter (question : Question)
    (canvasWidth wallWidth wallSegmentHeight tunnelHeight : ℚ)
    (numberOfTunnels : ℕ) : ℕ → ℕ → ℚ → ObstaclePool → ObstaclePool
  | _, 0, _, pool => pool
  | i, steps + 1, currentY, pool =>
    let pool1 := pool.createObstacle canvasWidth currentY wallWidth wallSegmentHeight
    if i < numberOfTunnels ∧ i < question.answers.length then
      let tunnelY := currentY + wallSegmentHeight
      let isCorrect := indexEqCorrect i question.correctAnswer
      let answerText := (question.answers.get? i).getD ("")
      let pool2 := pool1.createTunnel canvasWidth tunnelY wallWidth tunnelHeight
        isCorrect answerText
      genIter question canvasWidth wallWidth wallSegmentHeight tunnelHeight
        numberOfTunnels (i + 1) steps (currentY + wallSegmentHeight + tunnelHeight) pool2
    else
      genIter question canvasWidth wallWidth wallSegmentHeight tunnelHeight
        numberOfTunnels (i + 1) steps currentY pool1

/-- `WallGenerator.generateWallWithTunnels` (`src/obstacles.ts:275-325`).
The boolean result records whether generation aborted with the
`'Not enough space for tunnels'` layout error (`console.error` + `return`). -/
def generateWallWithTunnelsMethod (canvas : Canvas) (question : Question)
    (characterSize : ℚ) (pool : ObstaclePool) : ObstaclePool × Bool :=
  let wallWidth := defaultWallWidth
  let numberOfTunnels := numberOfTunnelsOf question
  let tunnelHeight := tunnelHeightOf characterSize
  let totalTunnelHeight := (numberOfTunnels : ℚ) * tunnelHeight
  let totalWallHeight := canvas.height - totalTunnelHeight
  if totalWallHeight < 0 then
    (pool, true)
  else
    let wallSegmentHeight := totalWallHeight / ((numberOfTunnels : ℚ) + 1)
    (genIter question canvas.width wallWidth wallSegmentHeight tunnelHeight
      numberOfTunnels 0 (numberOfTunnels + 1) 0 pool, false)

/-- The exported legacy `generateWallWithTunnels` (`src/obstacles.ts:426-432`):
clears the pool, then runs the generator with the default character size 60. -/
def generateWallWithTunnels (canvas : Canvas) (questionState : Question)
    (pool : ObstaclePool) : ObstaclePool × Bool :=
  generateWallWithTunnelsMethod canvas questionState 60 pool.clear

/-- `CollisionDetector.isRectColliding` (`src/obstacles.ts:399-408`). -/
def isRectColliding (character : Character) (obstacle : Obstacle) : Bool :=
  let charHalfSize := character.size / 2
  decide (character.x + charHalfSize > obstacle.x) &&
    decide (character.x - charHalfSize < obstacle.x + obstacle.width) &&
    decide (character.y + charHalfSize > obstacle.y) &&
    decide (character.y - charHalfSize < obstacle.y + obstacle.height)

/-- `CollisionDetector.isCharacterInTunnel` (`src/obstacles.ts:410-415`). -/
def isCharacterInTunnel (character : Character) (tunnel : Tunnel) : Bool :=
  decide (character.y ≥ tunnel.y) && decide (character.y ≤ tunnel.y + tunnel.height)

/-- `CollisionDetector.checkCollisions` (`src/obstacles.ts:351-397`):
ceiling, then floor, then the horizontal gate computed from the first
active obstacle, then solid segments, then tunnels, then the `'wall'`
fallback. -/
def checkCollisions (character : Character) (canvas : Canvas)
    (pool : ObstaclePool) : CollisionResult :=
  let characterHalfSize := character.size / 2
  if character.y - characterHalfSize ≤ 0 then
    CollisionResult.ceiling
  else if character.y + characterHalfSize ≥ canvas.height then
    CollisionResult.floor
  else
    match pool.activeObstacles with
    | [] => CollisionResult.null
    | first :: _ =>
      let wallX := first.x
      let wallWidth := first.width
      let charRight := character.x + characterHalfSize
      let charLeft := character.x - characterHalfSize
      if charRight < wallX ∨ charLeft > wallX + wallWidth then
        CollisionResult.null
      else if pool.activeObstacles.any (fun obstacle => isRectColliding character obstacle) then
        CollisionResult.wall
      else
        match pool.activeTunnels.find? (fun tunnel => isCharacterInTunnel character tunnel) with
        | some tunnel =>
          if tunnel.isCorrect then CollisionResult.correct else CollisionResult.incorrect
        | none => CollisionResult.wall

/-- `CharacterImpl.gravity` (`src/character.ts:5`): `0.5`. -/
def gravity : ℚ := 1 / 2

/-- `CharacterImpl.jump_strength` (`src/character.ts:6`): `-10`. -/
def jump_strength : ℚ := -10

/-- Mutable state of `CharacterImpl` (`src/character.ts`): `x` is a fixed
horizontal position, `y` and `velocity_y` evolve via physics. -/
structure CharacterState where
  x : ℚ
  y : ℚ
  velocity_y : ℚ
deriving DecidableEq, Repr

/-- `CharacterImpl.jump` (`src/character.ts:12-14`):
`this.velocity_y = this.jump_strength`. -/
def CharacterState.jump (c : CharacterState) : CharacterState :=
  { c with velocity_y := jump_strength }

/-- `CharacterImpl.update` (`src/character.ts:41-44`):
`this.velocity_y += this.gravity; this.y += this.velocity_y`. -/
def CharacterState.update (c : CharacterState) : CharacterState :=
  { c with
    velocity_y := c.velocity_y + gravity,
    y := c.y + (c.velocity_y + gravity) }

/-- Claim C8: starting from `y = 200, velocity_y = 0` with `gravity = 0.5`,
three successive `update()` calls yield `velocity_y = 0.5, 1.0, 1.5` and
`y = 200.5, 201.5, 203.0` after the first, second and third call. -/
theorem character_update_deterministic_sequence :
    (CharacterState.update ⟨150, 200, 0⟩).velocity_y = 1 / 2 ∧
    (CharacterState.update ⟨150, 200, 0⟩).y = 401 / 2 ∧
    (CharacterState.update (CharacterState.update ⟨150, 200, 0⟩)).velocity_y = 1 ∧
    (CharacterState.update (CharacterState.update ⟨150, 200, 0⟩)).y = 403 / 2 ∧
    (CharacterState.update (CharacterState.update (CharacterState.update ⟨150, 200, 0⟩))).velocity_y = 3 / 2 ∧
    (CharacterState.update (CharacterState.update (CharacterState.update ⟨150, 200, 0⟩))).y = 203 := by
  refine ⟨?_, ?_, ?_, ?_, ?_, ?_⟩ <;>
    norm_num [CharacterState.update, gravity]

/-- Claim C9: `jump()` is idempotent on velocity — calling it twice in a
row leaves `velocity_y` equal to `jump_strength` (and the double jump is
the same state as a single jump), not `2 * jump_strength`. -/
theorem jump_overwrites_velocity (c : CharacterState) :
    (CharacterState.jump (CharacterState.jump c)).velocity_y = jump_strength ∧
    CharacterState.jump (CharacterState.jump c) = CharacterState.jump c ∧
    (CharacterState.jump (CharacterState.jump c)).velocity_y ≠ 2 * jump_strength := by
  refine ⟨rfl, rfl, ?_⟩
  norm_num [CharacterState.jump, jump_strength]

/-- Helper: when the character is clear of ceiling and floor and its
horizontal span misses the band `[first.x, first.x + first.width]` taken
from the first active obstacle, `checkCollisions` returns `null`. -/
lemma checkCollisions_gate_null (c : Character) (canvas : Canvas)
    (pool : ObstaclePool) (first : Obstacle) (rest : List Obstacle)
    (hobs : pool.activeObstacles = first :: rest)
    (hceil : ¬ (c.y - c.size / 2 ≤ 0))
    (hfloor : ¬ (c.y + c.size / 2 ≥ canvas.height))
    (hgap : c.x + c.size / 2 < first.x ∨ c.x - c.size / 2 > first.x + first.width) :
    checkCollisions c canvas pool = CollisionResult.null := by
  simp only [checkCollisions, hobs]
  rw [if_neg hceil, if_neg hfloor, if_pos hgap]

/-- Claim C2: for every character and non-empty active obstacle set, if the
character's horizontal span `[x - size/2, x + size/2]` does not overlap the
wall band's span `[wallX, wallX + wallWidth]` and neither the ceiling nor
the floor condition holds, `checkCollisions` returns `null` regardless of
the character's vertical position. -/
theorem checkCollisions_no_horizontal_overlap_null (c : Character)
    (canvas : Canvas) (pool : ObstaclePool) (first : Obstacle)
    (rest : List Obstacle)
    (hobs : pool.activeObstacles = first :: rest)
    (hceil : ¬ (c.y - c.size / 2 ≤ 0))
    (hfloor : ¬ (c.y + c.size / 2 ≥ canvas.height))
    (hgap : c.x + c.size / 2 < first.x ∨ c.x - c.size / 2 > first.x + first.width) :
    checkCollisions c canvas pool = CollisionResult.null :=
  checkCollisions_gate_null c canvas pool first rest hobs hceil hfloor hgap

theorem checkCollisions_no_horizontal_overlap_null_witness :
    (¬ ((400 : ℚ) - 60 / 2 ≤ 0)) ∧ (¬ ((400 : ℚ) + 60 / 2 ≥ 800)) ∧
    ((150 : ℚ) + 60 / 2 < 500) ∧
    checkCollisions ⟨150, 400, 60⟩ ⟨800, 800⟩ ⟨[⟨500, 0, 100, 300⟩], []⟩ =
      CollisionResult.null :=
  ⟨by norm_num, by norm_num, by norm_num,
    checkCollisions_no_horizontal_overlap_null ⟨150, 400, 60⟩ ⟨800, 800⟩
      ⟨[⟨500, 0, 100, 300⟩], []⟩ ⟨500, 0, 100, 300⟩ [] rfl (by norm_num)
      (by norm_num) (Or.inl (by norm_num))⟩

/-- Claim C10 (implicit): the horizontal gate is computed solely from the
first element of the active obstacle list — when the character's span does
not overlap `[obstacles[0].x, obstacles[0].x + obstacles[0].width]`, the
result is `null` even when the span does overlap the horizontal extent of
some other active obstacle. -/
theorem checkCollisions_gate_uses_first_obstacle_only (c : Character)
    (canvas : Canvas) (pool : ObstaclePool) (first : Obstacle)
    (rest : List Obstacle)
    (hobs : pool.activeObstacles = first :: rest)
    (hceil : ¬ (c.y - c.size / 2 ≤ 0))
    (hfloor : ¬ (c.y + c.size / 2 ≥ canvas.height))
    (hgap : c.x + c.size / 2 < first.x ∨ c.x - c.size / 2 > first.x + first.width)
    (_hother : ∃ o ∈ rest, ¬ (c.x + c.size / 2 < o.x ∨ c.x - c.size / 2 > o.x + o.width)) :
    checkCollisions c canvas pool = CollisionResult.null :=
  checkCollisions_gate_null c canvas pool first rest hobs hceil hfloor hgap

theorem checkCollisions_gate_uses_first_obstacle_only_witness :
    (¬ ((400 : ℚ) - 60 / 2 ≤ 0)) ∧ (¬ ((400 : ℚ) + 60 / 2 ≥ 800)) ∧
    ((150 : ℚ) + 60 / 2 < 500) ∧
    (¬ ((150 : ℚ) + 60 / 2 < 100 ∨ (150 : ℚ) - 60 / 2 > 100 + 100)) ∧
    checkCollisions ⟨150, 400, 60⟩ ⟨800, 800⟩
      ⟨[⟨500, 0, 100, 300⟩, ⟨100, 0, 100, 800⟩], []⟩ = CollisionResult.null :=
  ⟨by norm_num, by norm_num, by norm_num, by norm_num,
    checkCollisions_gate_uses_first_obstacle_only ⟨150, 400, 60⟩ ⟨800, 800⟩
      ⟨[⟨500, 0, 100, 300⟩, ⟨100, 0, 100, 800⟩], []⟩ ⟨500, 0, 100, 300⟩
      [⟨100, 0, 100, 800⟩] rfl (by norm_num) (by norm_num)
      (Or.inl (by norm_num))
      ⟨⟨100, 0, 100, 800⟩, by simp, by norm_num⟩⟩

/-- Counterexample to claim C3 as stated: with canvas height 50 and
character size 60 at `y = 25`, the floor condition `25 + 30 ≥ 50` holds and
the character horizontally overlaps the active wall segment, yet
`checkCollisions` returns `ceiling` (checked before floor), not `floor`. -/
theorem checkCollisions_floor_not_first_cex :
    ((25 : ℚ) + 60 / 2 ≥ 50) ∧
    (¬ ((150 : ℚ) + 60 / 2 < 120 ∨ (150 : ℚ) - 60 / 2 > 120 + 100)) ∧
    checkCollisions ⟨150, 25, 60⟩ ⟨800, 50⟩ ⟨[⟨120, 0, 100, 50⟩], []⟩ ≠
      CollisionResult.floor := by
  refine ⟨by norm_num, by norm_num, ?_⟩
  have h : checkCollisions ⟨150, 25, 60⟩ ⟨800, 50⟩ ⟨[⟨120, 0, 100, 50⟩], []⟩ =
      CollisionResult.ceiling := by
    simp only [checkCollisions]
    rw [if_pos (by norm_num)]
  intro hcon
  rw [h] at hcon
  exact CollisionResult.noConfusion hcon

/-- Claim C3, amended: the ceiling check runs before the floor check, so a
character satisfying the ceiling condition returns `ceiling` regardless of
wall/tunnel state, and a character satisfying the floor condition but not
the ceiling condition returns `floor`, not `wall`, even when it
horizontally overlaps an active wall segment. -/
theorem checkCollisions_floor_ceiling_precedence (c : Character)
    (canvas : Canvas) (pool : ObstaclePool) :
    (c.y - c.size / 2 ≤ 0 → checkCollisions c canvas pool = CollisionResult.ceiling) ∧
    (¬ (c.y - c.size / 2 ≤ 0) → c.y + c.size / 2 ≥ canvas.height →
      (∃ o ∈ pool.activeObstacles,
        ¬ (c.x + c.size / 2 < o.x ∨ c.x - c.size / 2 > o.x + o.width)) →
      checkCollisions c canvas pool = CollisionResult.floor) := by
  constructor
  · intro h
    simp only [checkCollisions]
    rw [if_pos h]
  · intro h1 h2 _
    simp only [checkCollisions]
    rw [if_neg h1, if_pos h2]

theorem checkCollisions_floor_ceiling_precedence_witness :
    (¬ ((790 : ℚ) - 60 / 2 ≤ 0)) ∧ ((790 : ℚ) + 60 / 2 ≥ 800) ∧
    checkCollisions ⟨150, 790, 60⟩ ⟨800, 800⟩ ⟨[⟨100, 0, 100, 800⟩], []⟩ =
      CollisionResult.floor :=
  ⟨by norm_num, by norm_num,
    (checkCollisions_floor_ceiling_precedence ⟨150, 790, 60⟩ ⟨800, 800⟩
        ⟨[⟨100, 0, 100, 800⟩], []⟩).2 (by norm_num) (by norm_num)
      ⟨⟨100, 0, 100, 800⟩, by simp, by norm_num⟩⟩

/-- Claim C4: a character whose right edge exactly equals the wall band's
left edge (`c.x + size/2 = first.x`) is inside the horizontal gate (the
gate's boundary is inclusive: `charRight < wallX` fails), so when the
character is vertically inside a solid segment (its centre inside no
tunnel's vertical band), the result is `wall` rather than `null`. -/
theorem checkCollisions_touching_edge_is_wall (c : Character) (canvas : Canvas)
    (pool : ObstaclePool) (first : Obstacle) (rest : List Obstacle)
    (hobs : pool.activeObstacles = first :: rest)
    (hsize : 0 ≤ c.size) (hwidth : 0 ≤ first.width)
    (hceil : ¬ (c.y - c.size / 2 ≤ 0))
    (hfloor : ¬ (c.y + c.size / 2 ≥ canvas.height))
    (hedge : c.x + c.size / 2 = first.x)
    (hsolid : ∀ t ∈ pool.activeTunnels, ¬ (t.y ≤ c.y ∧ c.y ≤ t.y + t.height)) :
    checkCollisions c canvas pool = CollisionResult.wall := by
  have hgate : ¬ (c.x + c.size / 2 < first.x ∨
      c.x - c.size / 2 > first.x + first.width) := by
    push_neg
    constructor
    · linarith
    · linarith
  simp only [checkCollisions, hobs]
  rw [if_neg hceil, if_neg hfloor, if_neg hgate]
  by_cases hany : (first :: rest).any (fun obstacle => isRectColliding c obstacle)
  · rw [if_pos hany]
  · rw [if_neg hany]
    have hfind : pool.activeTunnels.find? (fun tunnel => isCharacterInTunnel c tunnel) = none := by
      rw [List.find?_eq_none]
      intro t ht
      have := hsolid t ht
      simp only [isCharacterInTunnel, Bool.and_eq_true, decide_eq_true_eq, ge_iff_le]
      intro hcon
      exact this ⟨hcon.1, hcon.2⟩
    rw [hfind]

theorem checkCollisions_touching_edge_is_wall_witness :
    ((150 : ℚ) + 60 / 2 = 180) ∧ (¬ ((100 : ℚ) - 60 / 2 ≤ 0)) ∧
    (¬ ((100 : ℚ) + 60 / 2 ≥ 800)) ∧
    checkCollisions ⟨150, 100, 60⟩ ⟨800, 800⟩ ⟨[⟨180, 0, 100, 50⟩], []⟩ =
      CollisionResult.wall :=
  ⟨by norm_num, by norm_num, by norm_num,
    checkCollisions_touching_edge_is_wall ⟨150, 100, 60⟩ ⟨800, 800⟩
      ⟨[⟨180, 0, 100, 50⟩], []⟩ ⟨180, 0, 100, 50⟩ [] rfl (by norm_num)
      (by norm_num) (by norm_num) (by norm_num) (by norm_num)
      (by intro t ht; cases ht)⟩

/-- Closed form: the `k`-th wall segment created by a generation loop that
started at vertical cursor `Y`. -/
def segmentAt (canvasWidth wallWidth wallSegmentHeight tunnelHeight Y : ℚ)
    (k : ℕ) : Obstacle :=
  ⟨canvasWidth, Y + (k : ℚ) * (wallSegmentHeight + tunnelHeight), wallWidth,
    wallSegmentHeight⟩

/-- Closed form: the `k`-th tunnel created by a generation loop that
started at vertical cursor `Y` and loop index `i`. -/
def tunnelAt (question : Question)
    (canvasWidth wallWidth wallSegmentHeight tunnelHeight Y : ℚ) (i k : ℕ) :
    Tunnel :=
  ⟨canvasWidth, Y + (k : ℚ) * (wallSegmentHeight + tunnelHeight) + wallSegmentHeight,
    wallWidth, tunnelHeight, indexEqCorrect (i + k) question.correctAnswer,
    ((question.answers.get? (i + k)).getD (""))⟩

lemma genIter_zero (question : Question) (cw ww segH tH : ℚ) (n i : ℕ)
    (Y : ℚ) (pool : ObstaclePool) :
    genIter question cw ww segH tH n i 0 Y pool = pool := rfl

lemma genIter_succ (question : Question) (cw ww segH tH : ℚ) (n i steps : ℕ)
    (Y : ℚ) (pool : ObstaclePool) :
    genIter question cw ww segH tH n i (steps + 1) Y pool =
      if i < n ∧ i < question.answers.length then
        genIter question cw ww segH tH n (i + 1) steps (Y + segH + tH)
          ((pool.createObstacle cw Y ww segH).createTunnel cw (Y + segH) ww tH
            (indexEqCorrect i question.correctAnswer)
            ((question.answers.get? i).getD ("")))
      else
        genIter question cw ww segH tH n (i + 1) steps Y
          (pool.createObstacle cw Y ww segH) := rfl


lemma map_range_succ_shift {α : Type} (g f : ℕ → α) (m : ℕ)
    (h0 : ∀ k, g (k + 1) = f k) :
    List.map g (List.range (m + 1)) = g 0 :: List.map f (List.range m) := by
  rw [List.range_succ_eq_map, List.map_cons, List.map_map]
  congr 1
  apply List.map_congr_left
  intro k _
  exact h0 k

/-- The generation loop, run for the final `steps` iterations (`i + steps =
n + 1`, `n ≤ answers.length`), appends exactly `steps` wall segments and
`steps - 1` tunnels in closed form. -/
lemma genIter_closed (question : Question) (cw ww segH tH : ℚ) (n : ℕ)
    (hn : n ≤ question.answers.length) :
    ∀ (steps i : ℕ) (Y : ℚ) (pool : ObstaclePool), i + steps = n + 1 →
      genIter question cw ww segH tH n i steps Y pool =
        ⟨pool.activeObstacles ++
            (List.range steps).map (segmentAt cw ww segH tH Y),
          pool.activeTunnels ++
            (List.range (steps - 1)).map (tunnelAt question cw ww segH tH Y i)⟩ := by
  intro steps
  induction steps with
  | zero =>
    intro i Y pool _
    rw [genIter_zero]
    simp
  | succ s ih =>
    intro i Y pool h
    cases s with
    | zero =>
      rw [genIter_succ, if_neg (by omega : ¬ (i < n ∧ i < question.answers.length)),
        genIter_zero]
      have h1 : List.range 1 = [0] := rfl
      simp [ObstaclePool.createObstacle, segmentAt, h1]
    | succ t =>
      have hi : i < n := by omega
      have hilen : i < question.answers.length := lt_of_lt_of_le hi hn
      have hshiftSeg : ∀ k : ℕ,
          segmentAt cw ww segH tH Y (k + 1) =
            segmentAt cw ww segH tH (Y + segH + tH) k := by
        intro k
        simp only [segmentAt, Obstacle.mk.injEq, true_and, and_true]
        push_cast
        ring
      have hshiftTun : ∀ k : ℕ,
          tunnelAt question cw ww segH tH Y i (k + 1) =
            tunnelAt question cw ww segH tH (Y + segH + tH) (i + 1) k := by
        intro k
        have hidx : i + (k + 1) = i + 1 + k := by omega
        simp only [tunnelAt, hidx, Tunnel.mk.injEq, true_and, and_true]
        push_cast
        ring
      rw [genIter_succ, if_pos ⟨hi, hilen⟩, ih (i + 1) (Y + segH + tH) _ (by omega)]
      simp only [ObstaclePool.createObstacle, ObstaclePool.createTunnel,
        ObstaclePool.mk.injEq]
      constructor
      · conv_rhs => rw [map_range_succ_shift _ _ (t + 1) hshiftSeg]
        rw [List.append_assoc, List.singleton_append]
        congr 2
        simp [segmentAt]
      · simp only [Nat.add_sub_cancel]
        conv_rhs => rw [map_range_succ_shift _ _ t hshiftTun]
        rw [List.append_assoc, List.singleton_append]
        congr 2
        simp [tunnelAt]

/-- Successful generation (`n * tunnelHeight ≤ canvasHeight`): the method
appends the alternating wall in closed form and reports no layout error. -/
lemma generateWallWithTunnelsMethod_success (canvas : Canvas)
    (question : Question) (characterSize : ℚ) (pool : ObstaclePool)
    (hfit : (numberOfTunnelsOf question : ℚ) * tunnelHeightOf characterSize ≤
      canvas.height) :
    generateWallWithTunnelsMethod canvas question characterSize pool =
      (⟨pool.activeObstacles ++
          (List.range (numberOfTunnelsOf question + 1)).map
            (segmentAt canvas.width defaultWallWidth
              (wallSegmentHeightOf canvas question characterSize)
              (tunnelHeightOf characterSize) 0),
        pool.activeTunnels ++
          (List.range (numberOfTunnelsOf question)).map
            (tunnelAt question canvas.width defaultWallWidth
              (wallSegmentHeightOf canvas question characterSize)
              (tunnelHeightOf characterSize) 0 0)⟩, false) := by
  have hnotlt : ¬ (canvas.height -
      (numberOfTunnelsOf question : ℚ) * tunnelHeightOf characterSize < 0) := by
    linarith
  simp only [generateWallWithTunnelsMethod, wallSegmentHeightOf, if_neg hnotlt]
  rw [genIter_closed question canvas.width defaultWallWidth _ _
    (numberOfTunnelsOf question) (by exact min_le_right _ _)
    (numberOfTunnelsOf question + 1) 0 0 pool (by omega)]
  simp only [Nat.add_sub_cancel]

/-- Aborted generation: when `n * tunnelHeight > canvasHeight` the method
returns the pool unchanged and reports the layout error. -/
lemma generateWallWithTunnelsMethod_abort (canvas : Canvas)
    (question : Question) (characterSize : ℚ) (pool : ObstaclePool)
    (hbig : canvas.height <
      (numberOfTunnelsOf question : ℚ) * tunnelHeightOf characterSize) :
    generateWallWithTunnelsMethod canvas question characterSize pool =
      (pool, true) := by
  have hlt : canvas.height -
      (numberOfTunnelsOf question : ℚ) * tunnelHeightOf characterSize < 0 := by
    linarith
  simp only [generateWallWithTunnelsMethod, if_pos hlt]

lemma countP_range_beq_eq_one (n i : ℕ) (h : i < n) :
    (List.range n).countP (fun k => k == i) = 1 := by
  induction n with
  | zero => omega
  | succ m ih =>
    rw [List.range_succ, List.countP_append]
    rcases Nat.lt_succ_iff_lt_or_eq.mp h with h' | h'
    · rw [ih h']
      have hne : (m == i) = false := by
        simp only [beq_eq_false_iff_ne, ne_eq]
        omega
      simp [List.countP_cons, hne]
    · subst h'
      have hz : (List.range i).countP (fun k => k == i) = 0 := by
        apply List.countP_eq_zero.mpr
        intro k hk
        simp only [List.mem_range] at hk
        simp only [beq_iff_eq]
        omega
      simp [List.countP_cons, hz]

/-- Every tunnel created by the generation loop of a question whose
`correctAnswer` is `null` has `isCorrect = false`. -/
lemma genIter_tunnels_isCorrect_false (question : Question)
    (hq : question.correctAnswer = none) (cw ww segH tH : ℚ) (n : ℕ) :
    ∀ (steps i : ℕ) (Y : ℚ) (pool : ObstaclePool),
      (∀ t ∈ pool.activeTunnels, t.isCorrect = false) →
      ∀ t ∈ (genIter question cw ww segH tH n i steps Y pool).activeTunnels,
        t.isCorrect = false := by
  intro steps
  induction steps with
  | zero =>
    intro i Y pool hpool
    rw [genIter_zero]
    exact hpool
  | succ s ih =>
    intro i Y pool hpool
    rw [genIter_succ]
    by_cases hc : i < n ∧ i < question.answers.length
    · rw [if_pos hc]
      apply ih
      intro t ht
      simp only [ObstaclePool.createTunnel, ObstaclePool.createObstacle,
        List.mem_append, List.mem_singleton] at ht
      rcases ht with ht | ht
      · exact hpool t ht
      · subst ht
        simp [indexEqCorrect, hq]
    · rw [if_neg hc]
      apply ih
      intro t ht
      exact hpool t ht

/-- When every active tunnel has `isCorrect = false`, `checkCollisions`
can never classify the character as `correct`. -/
lemma checkCollisions_ne_correct_of_all_incorrect (c : Character)
    (canvas : Canvas) (pool : ObstaclePool)
    (h : ∀ t ∈ pool.activeTunnels, t.isCorrect = false) :
    checkCollisions c canvas pool ≠ CollisionResult.correct := by
  intro hcon
  simp only [checkCollisions] at hcon
  split at hcon
  · exact CollisionResult.noConfusion hcon
  · split at hcon
    · exact CollisionResult.noConfusion hcon
    · split at hcon
      · exact CollisionResult.noConfusion hcon
      · split at hcon
        · exact CollisionResult.noConfusion hcon
        · split at hcon
          · exact CollisionResult.noConfusion hcon
          · split at hcon
            · rename_i tunnel heq
              split at hcon
              · rename_i hc
                have hmem := List.mem_of_find?_eq_some heq
                rw [h tunnel hmem] at hc
                exact Bool.noConfusion hc
              · exact CollisionResult.noConfusion hcon
            · exact CollisionResult.noConfusion hcon

/-- Claim C1, amended with the layout-fit precondition
`n * tunnelHeight ≤ canvasHeight` (when the canvas is too short, generation
aborts and the wall has no tunnels at all): after the exported
`generateWallWithTunnels` on a question with 1-4 answers and a valid
correct index `i`, exactly one active tunnel has `isCorrect = true`, and it
is the tunnel at list index `i`, carrying answer string `answers[i]`. -/
theorem generate_unique_correct_tunnel (canvas : Canvas) (question : Question)
    (pool : ObstaclePool) (i : ℕ)
    (hlen1 : 1 ≤ question.answers.length)
    (hlen4 : question.answers.length ≤ 4)
    (hca : question.correctAnswer = some i)
    (hi : i < question.answers.length)
    (hfit : (numberOfTunnelsOf question : ℚ) * tunnelHeightOf 60 ≤ canvas.height) :
    ((generateWallWithTunnels canvas question pool).1.activeTunnels.countP
        (fun t => t.isCorrect)) = 1 ∧
    ∃ t, (generateWallWithTunnels canvas question pool).1.activeTunnels.get? i =
        some t ∧ t.isCorrect = true ∧
      question.answers.get? i = some t.answerText := by
  have hn : numberOfTunnelsOf question = question.answers.length := by
    simp only [numberOfTunnelsOf, defaultTunnelCount]
    omega
  have hin : i < numberOfTunnelsOf question := by
    rw [hn]
    exact hi
  simp only [generateWallWithTunnels]
  rw [show pool.clear = (⟨[], []⟩ : ObstaclePool) from rfl,
    generateWallWithTunnelsMethod_success canvas question 60 ⟨[], []⟩ hfit]
  simp only [List.nil_append]
  constructor
  · rw [List.countP_map]
    have hfun : ((fun t => t.isCorrect) ∘ tunnelAt question canvas.width
        defaultWallWidth (wallSegmentHeightOf canvas question 60)
        (tunnelHeightOf 60) 0 0) = fun k => k == i := by
      funext k
      simp [tunnelAt, indexEqCorrect, hca]
    rw [hfun]
    exact countP_range_beq_eq_one _ i hin
  · refine ⟨tunnelAt question canvas.width defaultWallWidth
      (wallSegmentHeightOf canvas question 60) (tunnelHeightOf 60) 0 0 i,
      ?_, ?_, ?_⟩
    · rw [List.get?_map, List.get?_range hin]
      rfl
    · simp [tunnelAt, indexEqCorrect, hca]
    · simp only [tunnelAt, Nat.zero_add]
      rw [List.get?_eq_get hi]
      simp

theorem generate_unique_correct_tunnel_witness :
    ((numberOfTunnelsOf ⟨"w", some 1, ["A", "B", "C", "D"]⟩ : ℚ) *
        tunnelHeightOf 60 ≤ (800 : ℚ)) ∧
    ((generateWallWithTunnels ⟨800, 800⟩ ⟨"w", some 1, ["A", "B", "C", "D"]⟩
        ⟨[], []⟩).1.activeTunnels.countP (fun t => t.isCorrect)) = 1 ∧
    ∃ t, (generateWallWithTunnels ⟨800, 800⟩ ⟨"w", some 1, ["A", "B", "C", "D"]⟩
        ⟨[], []⟩).1.activeTunnels.get? 1 = some t ∧ t.isCorrect = true ∧
      (Question.mk "w" (some 1) ["A", "B", "C", "D"]).answers.get? 1 =
        some t.answerText :=
  ⟨by norm_num [numberOfTunnelsOf, tunnelHeightOf, defaultTunnelCount, minTunnelHeight],
    (generate_unique_correct_tunnel ⟨800, 800⟩ ⟨"w", some 1, ["A", "B", "C", "D"]⟩
      ⟨[], []⟩ 1 (by norm_num) (by norm_num) rfl (by norm_num)
      (by norm_num [numberOfTunnelsOf, tunnelHeightOf, defaultTunnelCount,
        minTunnelHeight])).1,
    (generate_unique_correct_tunnel ⟨800, 800⟩ ⟨"w", some 1, ["A", "B", "C", "D"]⟩
      ⟨[], []⟩ 1 (by norm_num) (by norm_num) rfl (by norm_num)
      (by norm_num [numberOfTunnelsOf, tunnelHeightOf, defaultTunnelCount,
        minTunnelHeight])).2⟩

/-- Claim C5: with `n = min(4, answers.length)` and `n * tunnelHeight ≤
canvasHeight` (`tunnelHeight = max(minTunnelHeight, characterSize * 2)`),
`WallGenerator.generateWallWithTunnels` produces exactly `n + 1` wall
segments, each of equal height `(canvasHeight - n * tunnelHeight) / (n + 1)`,
and exactly `n` tunnels of height `tunnelHeight`, alternating segment,
tunnel, ..., segment from `y = 0` (segment `k` starts at
`k * (segmentHeight + tunnelHeight)`, tunnel `k` right below segment `k`),
closing exactly at `canvasHeight` so the pieces partition
`[0, canvasHeight]`; every created segment and tunnel has `x = canvasWidth`. -/
theorem generate_alternating_partition (canvas : Canvas) (question : Question)
    (characterSize : ℚ)
    (hfit : (numberOfTunnelsOf question : ℚ) * tunnelHeightOf characterSize ≤
      canvas.height) :
    ((generateWallWithTunnelsMethod canvas question characterSize
        ⟨[], []⟩).1.activeObstacles.length = numberOfTunnelsOf question + 1) ∧
    ((generateWallWithTunnelsMethod canvas question characterSize
        ⟨[], []⟩).1.activeTunnels.length = numberOfTunnelsOf question) ∧
    (∀ o ∈ (generateWallWithTunnelsMethod canvas question characterSize
        ⟨[], []⟩).1.activeObstacles,
      o.x = canvas.width ∧ o.width = defaultWallWidth ∧
        o.height = wallSegmentHeightOf canvas question characterSize) ∧
    (∀ t ∈ (generateWallWithTunnelsMethod canvas question characterSize
        ⟨[], []⟩).1.activeTunnels,
      t.x = canvas.width ∧ t.width = defaultWallWidth ∧
        t.height = tunnelHeightOf characterSize) ∧
    (∀ k, k < numberOfTunnelsOf question + 1 →
      (generateWallWithTunnelsMethod canvas question characterSize
          ⟨[], []⟩).1.activeObstacles.get? k =
        some ⟨canvas.width,
          (k : ℚ) * (wallSegmentHeightOf canvas question characterSize +
            tunnelHeightOf characterSize),
          defaultWallWidth, wallSegmentHeightOf canvas question characterSize⟩) ∧
    (∀ k, k < numberOfTunnelsOf question →
      (generateWallWithTunnelsMethod canvas question characterSize
          ⟨[], []⟩).1.activeTunnels.get? k =
        some ⟨canvas.width,
          (k : ℚ) * (wallSegmentHeightOf canvas question characterSize +
            tunnelHeightOf characterSize) +
            wallSegmentHeightOf canvas question characterSize,
          defaultWallWidth, tunnelHeightOf characterSize,
          indexEqCorrect k question.correctAnswer,
          ((question.answers.get? k).getD (""))⟩) ∧
    ((numberOfTunnelsOf question : ℚ) *
        (wallSegmentHeightOf canvas question characterSize +
          tunnelHeightOf characterSize) +
        wallSegmentHeightOf canvas question characterSize = canvas.height) := by
  rw [generateWallWithTunnelsMethod_success canvas question characterSize
    ⟨[], []⟩ hfit]
  simp only [List.nil_append]
  refine ⟨by simp, by simp, ?_, ?_, ?_, ?_, ?_⟩
  · intro o ho
    simp only [List.mem_map, List.mem_range] at ho
    obtain ⟨k, _, hk⟩ := ho
    subst hk
    simp [segmentAt]
  · intro t ht
    simp only [List.mem_map, List.mem_range] at ht
    obtain ⟨k, _, hk⟩ := ht
    subst hk
    simp [tunnelAt]
  · intro k hk
    rw [List.get?_map, List.get?_range hk]
    simp [segmentAt]
  · intro k hk
    rw [List.get?_map, List.get?_range hk]
    simp [tunnelAt]
  · have hden : ((numberOfTunnelsOf question : ℚ) + 1) ≠ 0 := by positivity
    simp only [wallSegmentHeightOf]
    field_simp
    ring

theorem generate_alternating_partition_witness :
    ((numberOfTunnelsOf ⟨"v", some 0, ["A", "B"]⟩ : ℚ) * tunnelHeightOf 60 ≤
      (800 : ℚ)) ∧
    (((generateWallWithTunnelsMethod ⟨800, 800⟩ ⟨"v", some 0, ["A", "B"]⟩ 60
        ⟨[], []⟩).1.activeObstacles.length =
      numberOfTunnelsOf ⟨"v", some 0, ["A", "B"]⟩ + 1) ∧
    ((generateWallWithTunnelsMethod ⟨800, 800⟩ ⟨"v", some 0, ["A", "B"]⟩ 60
        ⟨[], []⟩).1.activeTunnels.length =
      numberOfTunnelsOf ⟨"v", some 0, ["A", "B"]⟩) ∧
    (∀ o ∈ (generateWallWithTunnelsMethod ⟨800, 800⟩ ⟨"v", some 0, ["A", "B"]⟩ 60
        ⟨[], []⟩).1.activeObstacles,
      o.x = (Canvas.mk 800 800).width ∧ o.width = defaultWallWidth ∧
        o.height = wallSegmentHeightOf ⟨800, 800⟩ ⟨"v", some 0, ["A", "B"]⟩ 60) ∧
    (∀ t ∈ (generateWallWithTunnelsMethod ⟨800, 800⟩ ⟨"v", some 0, ["A", "B"]⟩ 60
        ⟨[], []⟩).1.activeTunnels,
      t.x = (Canvas.mk 800 800).width ∧ t.width = defaultWallWidth ∧
        t.height = tunnelHeightOf 60) ∧
    (∀ k, k < numberOfTunnelsOf ⟨"v", some 0, ["A", "B"]⟩ + 1 →
      (generateWallWithTunnelsMethod ⟨800, 800⟩ ⟨"v", some 0, ["A", "B"]⟩ 60
          ⟨[], []⟩).1.activeObstacles.get? k =
        some ⟨(Canvas.mk 800 800).width,
          (k : ℚ) * (wallSegmentHeightOf ⟨800, 800⟩ ⟨"v", some 0, ["A", "B"]⟩ 60 +
            tunnelHeightOf 60),
          defaultWallWidth, wallSegmentHeightOf ⟨800, 800⟩ ⟨"v", some 0, ["A", "B"]⟩ 60⟩) ∧
    (∀ k, k < numberOfTunnelsOf ⟨"v", some 0, ["A", "B"]⟩ →
      (generateWallWithTunnelsMethod ⟨800, 800⟩ ⟨"v", some 0, ["A", "B"]⟩ 60
          ⟨[], []⟩).1.activeTunnels.get? k =
        some ⟨(Canvas.mk 800 800).width,
          (k : ℚ) * (wallSegmentHeightOf ⟨800, 800⟩ ⟨"v", some 0, ["A", "B"]⟩ 60 +
            tunnelHeightOf 60) +
            wallSegmentHeightOf ⟨800, 800⟩ ⟨"v", some 0, ["A", "B"]⟩ 60,
          defaultWallWidth, tunnelHeightOf 60,
          indexEqCorrect k (Question.mk "v" (some 0) ["A", "B"]).correctAnswer,
          (((Question.mk "v" (some 0) ["A", "B"]).answers.get? k).getD (""))⟩) ∧
    ((numberOfTunnelsOf ⟨"v", some 0, ["A", "B"]⟩ : ℚ) *
        (wallSegmentHeightOf ⟨800, 800⟩ ⟨"v", some 0, ["A", "B"]⟩ 60 +
          tunnelHeightOf 60) +
        wallSegmentHeightOf ⟨800, 800⟩ ⟨"v", some 0, ["A", "B"]⟩ 60 =
      (Canvas.mk 800 800).height)) :=
  ⟨by norm_num [numberOfTunnelsOf, tunnelHeightOf, defaultTunnelCount, minTunnelHeight],
    generate_alternating_partition ⟨800, 800⟩ ⟨"v", some 0, ["A", "B"]⟩ 60
      (by norm_num [numberOfTunnelsOf, tunnelHeightOf, defaultTunnelCount,
        minTunnelHeight])⟩

/-- Counterexample to claim C6 as stated: with a canvas of height 100
(too short for one tunnel of height 120) and a pool holding one active
obstacle, the exported `generateWallWithTunnels` aborts — but the active
obstacle list after the call is empty rather than equal to its pre-call
contents, because the exported wrapper clears the pool before the
generator's height check runs. -/
theorem generate_abort_pool_mutated_cex :
    (generateWallWithTunnels ⟨800, 100⟩ ⟨"w", some 0, ["A"]⟩
        ⟨[⟨0, 0, 1, 1⟩], []⟩).1.activeObstacles ≠ [⟨0, 0, 1, 1⟩] := by
  have h : generateWallWithTunnels ⟨800, 100⟩ ⟨"w", some 0, ["A"]⟩
      ⟨[⟨0, 0, 1, 1⟩], []⟩ = (⟨[], []⟩, true) := by
    simp only [generateWallWithTunnels, ObstaclePool.clear]
    exact generateWallWithTunnelsMethod_abort ⟨800, 100⟩ ⟨"w", some 0, ["A"]⟩ 60
      ⟨[], []⟩
      (by norm_num [numberOfTunnelsOf, tunnelHeightOf, defaultTunnelCount,
        minTunnelHeight])
  rw [h]
  simp

/-- Claim C6, amended: when `n * tunnelHeight > canvasHeight` the exported
`generateWallWithTunnels` reports the layout error without crashing and
creates no obstacle or tunnel, but it does not leave the pool's active
lists as they were: the wrapper clears them before the height check, so
after the call both active lists are empty. -/
theorem generate_abort_clears_and_reports (canvas : Canvas)
    (question : Question) (pool : ObstaclePool)
    (hbig : canvas.height <
      (numberOfTunnelsOf question : ℚ) * tunnelHeightOf 60) :
    generateWallWithTunnels canvas question pool = (⟨[], []⟩, true) := by
  simp only [generateWallWithTunnels, ObstaclePool.clear]
  exact generateWallWithTunnelsMethod_abort canvas question 60 ⟨[], []⟩ hbig

theorem generate_abort_clears_and_reports_witness :
    ((Canvas.mk 800 100).height <
      (numberOfTunnelsOf ⟨"e", some 0, ["A"]⟩ : ℚ) * tunnelHeightOf 60) ∧
    generateWallWithTunnels ⟨800, 100⟩ ⟨"e", some 0, ["A"]⟩
      ⟨[⟨5, 5, 5, 5⟩], [⟨6, 6, 6, 6, true, "x"⟩]⟩ = (⟨[], []⟩, true) :=
  ⟨by norm_num [numberOfTunnelsOf, tunnelHeightOf, defaultTunnelCount,
      minTunnelHeight],
    generate_abort_clears_and_reports ⟨800, 100⟩ ⟨"e", some 0, ["A"]⟩
      ⟨[⟨5, 5, 5, 5⟩], [⟨6, 6, 6, 6, true, "x"⟩]⟩
      (by norm_num [numberOfTunnelsOf, tunnelHeightOf, defaultTunnelCount,
        minTunnelHeight])⟩

/-- Claim C7: for a question whose `correctAnswer` is `null` (the
provider's fallback on fetch failure), every tunnel produced by the
exported `generateWallWithTunnels` has `isCorrect = false`, and
`checkCollisions` on the resulting pool never returns `correct` for any
character and canvas (a character entering any tunnel gets `incorrect`);
all functions involved are total, so no crash occurs. -/
theorem null_correctAnswer_never_correct (canvas : Canvas)
    (question : Question) (pool : ObstaclePool)
    (hq : question.correctAnswer = none) :
    (∀ t ∈ (generateWallWithTunnels canvas question pool).1.activeTunnels,
      t.isCorrect = false) ∧
    (∀ (c : Character) (canvas2 : Canvas),
      checkCollisions c canvas2 (generateWallWithTunnels canvas question pool).1 ≠
        CollisionResult.correct) := by
  have halltun : ∀ t ∈ (generateWallWithTunnels canvas question pool).1.activeTunnels,
      t.isCorrect = false := by
    simp only [generateWallWithTunnels, generateWallWithTunnelsMethod,
      ObstaclePool.clear]
    by_cases hlt : canvas.height -
        (numberOfTunnelsOf question : ℚ) * tunnelHeightOf 60 < 0
    · rw [if_pos hlt]
      intro t ht
      cases ht
    · rw [if_neg hlt]
      exact genIter_tunnels_isCorrect_false question hq canvas.width
        defaultWallWidth _ _ (numberOfTunnelsOf question)
        (numberOfTunnelsOf question + 1) 0 0 ⟨[], []⟩
        (fun t ht => absurd ht (List.not_mem_nil t))
  exact ⟨halltun, fun c canvas2 =>
    checkCollisions_ne_correct_of_all_incorrect c canvas2 _ halltun⟩

theorem null_correctAnswer_never_correct_witness :
    (∀ t ∈ (generateWallWithTunnels ⟨800, 800⟩ ⟨"err", none, ["X", "Y"]⟩
        ⟨[], []⟩).1.activeTunnels, t.isCorrect = false) ∧
    checkCollisions ⟨150, 400, 60⟩ ⟨800, 800⟩
      (generateWallWithTunnels ⟨800, 800⟩ ⟨"err", none, ["X", "Y"]⟩
        ⟨[], []⟩).1 ≠ CollisionResult.correct :=
  ⟨(null_correctAnswer_never_correct ⟨800, 800⟩ ⟨"err", none, ["X", "Y"]⟩
      ⟨[], []⟩ rfl).1,
    (null_correctAnswer_never_correct ⟨800, 800⟩ ⟨"err", none, ["X", "Y"]⟩
      ⟨[], []⟩ rfl).2 ⟨150, 400, 60⟩ ⟨800, 800⟩⟩

/-- Counterexample to claim C1 as stated: the question `["A"]` with valid
correct index 0 satisfies all of the claim's hypotheses, but on a canvas of
height 100 (shorter than one tunnel of height 120) generation aborts, the
active tunnel set is empty, and no tunnel at all has `isCorrect = true`. -/
theorem generate_unique_correct_tunnel_cex :
    (1 ≤ (Question.mk "q" (some 0) ["A"]).answers.length) ∧
    ((Question.mk "q" (some 0) ["A"]).answers.length ≤ 4) ∧
    ((Question.mk "q" (some 0) ["A"]).correctAnswer = some 0) ∧
    (0 < (Question.mk "q" (some 0) ["A"]).answers.length) ∧
    ((generateWallWithTunnels ⟨800, 100⟩ ⟨"q", some 0, ["A"]⟩
        ⟨[], []⟩).1.activeTunnels.countP (fun t => t.isCorrect)) ≠ 1 := by
  refine ⟨by norm_num, by norm_num, rfl, by norm_num, ?_⟩
  have h : generateWallWithTunnels ⟨800, 100⟩ ⟨"q", some 0, ["A"]⟩ ⟨[], []⟩ =
      (⟨[], []⟩, true) := by
    simp only [generateWallWithTunnels, ObstaclePool.clear]
    exact generateWallWithTunnelsMethod_abort ⟨800, 100⟩ ⟨"q", some 0, ["A"]⟩ 60
      ⟨[], []⟩
      (by norm_num [numberOfTunnelsOf, tunnelHeightOf, defaultTunnelCount,
        minTunnelHeight])
  rw [h]
  simp
